import Mathlib

/-!
Shallow embedding of the per-item operation dispatcher of the
`n8n-nodes-soroswap` node (`src/nodes/Soroswap/Soroswap.node.ts`,
`Soroswap.execute`).

The node iterates the incoming item sequence; for each item it resolves the
`operation` and `network` parameters, coerces the operation's parameters
(decimal strings to arbitrary-precision integers via the JS `BigInt`
constructor, enum keys via TS enum-object indexing, comma lists via
`split(',')`/`trim()`), invokes one SDK call, and pushes a result record
carrying `pairedItem: itemIndex`.  A thrown error is caught per item: under
`continueOnFail()` a failure record is pushed for that index, otherwise the
run aborts with a `NodeOperationError` carrying the item index.

The remote SDK (`@soroswap/sdk`) is an opaque collaborator: it is modelled
as a function from the fully-coerced call descriptor (`RemoteCall`) to an
`Except String α` (success payload or error message), supplied as a
parameter `sdk` to the dispatcher.
-/

namespace Soroswap

/-- The SDK enum `SupportedNetworks`, as used by the node (MAINNET / TESTNET). -/
inductive Network where
  | MAINNET
  | TESTNET
deriving DecidableEq, Repr, Inhabited

/-- The SDK enum `TradeType` (EXACT_IN / EXACT_OUT). -/
inductive TradeType where
  | EXACT_IN
  | EXACT_OUT
deriving DecidableEq, Repr, Inhabited

/-- The SDK enum `SupportedProtocols`; the node's UI offers exactly these four keys. -/
inductive Protocol where
  | SOROSWAP
  | PHOENIX
  | AQUA
  | SDEX
deriving DecidableEq, Repr, Inhabited

/-- The SDK enum `SupportedAssetLists`; the node's UI offers exactly these four keys
(plus the empty string meaning "all lists"). -/
inductive AssetList where
  | AQUA
  | LOBSTR
  | SOROSWAP
  | STELLAR_EXPERT
deriving DecidableEq, Repr, Inhabited

/-- TS enum-object indexing `SupportedProtocols[p]`: an unknown key yields
`undefined` (here `none`) without throwing. -/
def supportedProtocolsLookup (p : String) : Option Protocol :=
  if p = "SOROSWAP" then some .SOROSWAP
  else if p = "PHOENIX" then some .PHOENIX
  else if p = "AQUA" then some .AQUA
  else if p = "SDEX" then some .SDEX
  else none

/-- TS enum-object indexing `SupportedAssetLists[name]`: an unknown key yields
`undefined` (here `none`) without throwing. -/
def supportedAssetListsLookup (p : String) : Option AssetList :=
  if p = "AQUA" then some .AQUA
  else if p = "LOBSTR" then some .LOBSTR
  else if p = "SOROSWAP" then some .SOROSWAP
  else if p = "STELLAR_EXPERT" then some .STELLAR_EXPERT
  else none

/-- Line 462: `networkParam === 'MAINNET' ? SupportedNetworks.MAINNET :
SupportedNetworks.TESTNET` — any string other than `"MAINNET"` resolves to
TESTNET. -/
def resolveNetwork (s : String) : Network :=
  if s = "MAINNET" then .MAINNET else .TESTNET

/-- Line 476: `tradeTypeParam === 'EXACT_IN' ? TradeType.EXACT_IN :
TradeType.EXACT_OUT` — any string other than `"EXACT_IN"` resolves to
EXACT_OUT. -/
def resolveTradeType (s : String) : TradeType :=
  if s = "EXACT_IN" then .EXACT_IN else .EXACT_OUT

/-- Value of a decimal digit character, `none` for a non-digit. -/
def decDigit (c : Char) : Option Nat :=
  if c.isDigit then some (c.toNat - 48) else none

/-- Value of a hexadecimal digit character, `none` otherwise. -/
def hexDigit (c : Char) : Option Nat :=
  if c.isDigit then some (c.toNat - 48)
  else if 97 ≤ c.toNat ∧ c.toNat ≤ 102 then some (c.toNat - 87)
  else if 65 ≤ c.toNat ∧ c.toNat ≤ 70 then some (c.toNat - 55)
  else none

/-- Value of an octal digit character, `none` otherwise. -/
def octDigit (c : Char) : Option Nat :=
  if 48 ≤ c.toNat ∧ c.toNat ≤ 55 then some (c.toNat - 48) else none

/-- Value of a binary digit character, `none` otherwise. -/
def binDigit (c : Char) : Option Nat :=
  if c = '0' then some 0 else if c = '1' then some 1 else none

/-- Read a non-empty all-digit character list in the given base; `none` on an
empty list or any non-digit. -/
def parseNatBase (digit : Char → Option Nat) (base : Nat) : List Char → Option Nat
  | [] => none
  | cs => cs.foldlM (fun acc c => (digit c).map (fun d => acc * base + d)) 0

/-- Strip leading and trailing whitespace from a character list. -/
def trimChars (cs : List Char) : List Char :=
  ((cs.dropWhile Char.isWhitespace).reverse.dropWhile Char.isWhitespace).reverse

/-- Split a character list at every occurrence of `sep`, keeping empty
segments; the result is always non-empty (JS `String.prototype.split` with a
single-character separator). -/
def splitChars (sep : Char) : List Char → List (List Char)
  | [] => [[]]
  | c :: rest =>
    match splitChars sep rest with
    | [] => [[]]
    | seg :: segs => if c = sep then [] :: seg :: segs else (c :: seg) :: segs

/-- JS `s.split(sep)` for a single-character separator. -/
def jsSplit (s : String) (sep : Char) : List String :=
  (splitChars sep s.toList).map (fun cs => String.mk cs)

/-- JS `s.trim()`: strip leading and trailing whitespace. -/
def jsTrim (s : String) : String :=
  String.mk (trimChars s.toList)

/-- JS `String.prototype.toLowerCase` on one character, restricted to the
ASCII range the node's protocol keys live in. -/
def toLowerChar (c : Char) : Char :=
  if 65 ≤ c.toNat ∧ c.toNat ≤ 90 then Char.ofNat (c.toNat + 32) else c

/-- JS `s.toLowerCase()` (ASCII). -/
def jsToLower (s : String) : String :=
  String.mk (s.toList.map toLowerChar)

/-- The ECMAScript `BigInt(string)` conversion (`StringToBigInt`), used by the
node for the `amount`, `amountA`, `amountB` and `liquidity` parameters:
whitespace is trimmed; the empty remainder is `0n`; `0x`/`0o`/`0b` prefixes
select the radix (no sign allowed); otherwise an optional single sign is
followed by one or more decimal digits; anything else throws (here `none`). -/
def strToBigInt (s : String) : Option Int :=
  match trimChars s.toList with
  | [] => some 0
  | '0' :: 'x' :: rest => (parseNatBase hexDigit 16 rest).map Int.ofNat
  | '0' :: 'X' :: rest => (parseNatBase hexDigit 16 rest).map Int.ofNat
  | '0' :: 'o' :: rest => (parseNatBase octDigit 8 rest).map Int.ofNat
  | '0' :: 'O' :: rest => (parseNatBase octDigit 8 rest).map Int.ofNat
  | '0' :: 'b' :: rest => (parseNatBase binDigit 2 rest).map Int.ofNat
  | '0' :: 'B' :: rest => (parseNatBase binDigit 2 rest).map Int.ofNat
  | '+' :: rest => (parseNatBase decDigit 10 rest).map Int.ofNat
  | '-' :: rest => (parseNatBase decDigit 10 rest).map (fun n => -(Int.ofNat n))
  | cs => (parseNatBase decDigit 10 cs).map Int.ofNat

/-- The raw per-item configuration bag: one field per named node parameter,
with the schema defaults of the node's `properties` declaration.  (`from` is a
Lean keyword, and so is `to`: those parameters are `fromAddress` and `toAddress` here.) -/
structure Item where
  operation : String := "getProtocols"
  network : String := "MAINNET"
  assetIn : String := ""
  assetOut : String := ""
  amount : String := ""
  tradeType : String := "EXACT_IN"
  protocols : List String := ["SOROSWAP"]
  quote : String := "\x7b\x7d"
  fromAddress : String := ""
  toAddress : String := ""
  xdr : String := ""
  launchtube : Bool := false
  assetA : String := ""
  assetB : String := ""
  amountA : String := ""
  amountB : String := ""
  liquidity : String := ""
  address : String := ""
  assetListName : String := ""
  assets : String := ""
  contractName : String := "factory"
deriving DecidableEq, Repr, Inhabited

/-- Descriptor of one fully-coerced SDK invocation: one constructor per
`sdk.*` call site in the `switch`, with exactly the arguments the node
passes. -/
inductive RemoteCall where
  | getProtocols (network : Network)
  | quote (assetIn assetOut : String) (amount : Int) (tradeType : TradeType)
      (protocols : List (Option Protocol)) (network : Network)
  | build (quoteJson : String) (fromAddress toAddress : Option String) (network : Network)
  | send (xdr : String) (launchtube : Bool) (network : Network)
  | getPools (network : Network) (protocols : List String)
  | getPoolByTokens (assetA assetB : String) (network : Network) (protocols : List String)
  | addLiquidity (assetA assetB : String) (amountA amountB : Int) (toAddress : String)
      (network : Network)
  | removeLiquidity (assetA assetB : String) (liquidity amountA amountB : Int)
      (toAddress : String) (network : Network)
  | getUserPositions (address : String) (network : Network)
  | getAssetList (name : Option AssetList)
  | getPrice (assets : String ⊕ List String) (network : Network)
  | getContractAddress (network : Network) (contractName : String)
deriving DecidableEq, Repr

/-- The `switch (operation)` body of `Soroswap.execute` (lines 466–585), up to
but excluding the SDK invocation itself: parameter extraction and coercion for
one item, producing either the `RemoteCall` descriptor or the message of the
error thrown during coercion/dispatch.
`BigInt` throws `"Cannot convert <s> to a BigInt"` on a malformed string; the
`default` branch throws `"Unknown operation: <op>"`. -/
def resolveCall (it : Item) : Except String RemoteCall :=
  let network := resolveNetwork it.network
  match it.operation with
  | "getProtocols" => .ok (.getProtocols network)
  | "quote" =>
      match strToBigInt it.amount with
      | some n =>
          .ok (.quote it.assetIn it.assetOut n (resolveTradeType it.tradeType)
            (it.protocols.map supportedProtocolsLookup) network)
      | none => .error ("Cannot convert " ++ it.amount ++ " to a BigInt")
  | "build" =>
      .ok (.build it.quote
        (if it.fromAddress = "" then none else some it.fromAddress)
        (if it.toAddress = "" then none else some it.toAddress) network)
  | "send" => .ok (.send it.xdr it.launchtube network)
  | "getPools" => .ok (.getPools network (it.protocols.map jsToLower))
  | "getPoolByTokens" =>
      .ok (.getPoolByTokens it.assetA it.assetB network (it.protocols.map jsToLower))
  | "addLiquidity" =>
      match strToBigInt it.amountA with
      | none => .error ("Cannot convert " ++ it.amountA ++ " to a BigInt")
      | some a =>
          match strToBigInt it.amountB with
          | none => .error ("Cannot convert " ++ it.amountB ++ " to a BigInt")
          | some b => .ok (.addLiquidity it.assetA it.assetB a b it.toAddress network)
  | "removeLiquidity" =>
      match strToBigInt it.liquidity with
      | none => .error ("Cannot convert " ++ it.liquidity ++ " to a BigInt")
      | some l => .ok (.removeLiquidity it.assetA it.assetB l 0 0 it.toAddress network)
  | "getUserPositions" => .ok (.getUserPositions it.address network)
  | "getAssetList" =>
      .ok (.getAssetList
        (if it.assetListName = "" then none
         else supportedAssetListsLookup it.assetListName))
  | "getPrice" =>
      let assetsList := (jsSplit it.assets ',').map jsTrim
      .ok (.getPrice
        (if assetsList.length == 1 then Sum.inl (assetsList.headD "") else Sum.inr assetsList)
        network)
  | "getContractAddress" => .ok (.getContractAddress network it.contractName)
  | op => .error ("Unknown operation: " ++ op)

/-- Process one item inside the `try` block: coerce (`resolveCall`) and, if that
succeeds, invoke the opaque SDK. -/
def processItem (sdk : RemoteCall → Except String α) (it : Item) : Except String α :=
  match resolveCall it with
  | .ok call => sdk call
  | .error e => .error e

/-- One entry of the node's output: `{json: result, pairedItem}` on success,
`{json: {error: message}, error, pairedItem}` on a caught per-item failure. -/
inductive Outcome (α : Type) where
  | success (payload : α)
  | failure (message : String)
deriving DecidableEq, Repr

/-- One element pushed onto `returnData`, with its `pairedItem` index. -/
structure DispatchResult (α : Type) where
  outcome : Outcome α
  pairedItem : Nat
deriving DecidableEq, Repr

/-- The `NodeOperationError` re-thrown when `continueOnFail()` is false: it
aborts the whole run, carrying the error message and the offending
`itemIndex`. -/
structure Abort where
  message : String
  itemIndex : Nat
deriving DecidableEq, Repr

/-- The outcome recorded for one item: the `try` body's result, folded by the
`catch` into a success or failure record. -/
def dispatchOutcome (sdk : RemoteCall → Except String α) (it : Item) : Outcome α :=
  match processItem sdk it with
  | .ok payload => .success payload
  | .error e => .failure e

/-- The `for (let itemIndex = 0; ...)` loop of `Soroswap.execute` from position
`itemIndex`: each item is processed in order; a caught error either appends a
failure record (when `continueOnFail` holds) or aborts the run with the item's
index. -/
def runItems (sdk : RemoteCall → Except String α) (continueOnFail : Bool) :
    Nat → List Item → Except Abort (List (DispatchResult α))
  | _, [] => .ok []
  | itemIndex, it :: rest =>
    match processItem sdk it with
    | .ok payload =>
        (runItems sdk continueOnFail (itemIndex + 1) rest).map
          (fun rs => ⟨.success payload, itemIndex⟩ :: rs)
    | .error msg =>
        if continueOnFail then
          (runItems sdk continueOnFail (itemIndex + 1) rest).map
            (fun rs => ⟨.failure msg, itemIndex⟩ :: rs)
        else
          .error ⟨msg, itemIndex⟩

/-- The function `Soroswap.execute`: dispatch the whole input item sequence, starting at
index 0, against the opaque SDK `sdk` under the given `continueOnFail`
run-level flag. -/
def execute (sdk : RemoteCall → Except String α) (continueOnFail : Bool)
    (items : List Item) : Except Abort (List (DispatchResult α)) :=
  runItems sdk continueOnFail 0 items

/-- The per-item outcome sequence starting at index `itemIndex`: what the loop
accumulates when every failure is isolated to its item. -/
def resultsFrom (sdk : RemoteCall → Except String α) :
    Nat → List Item → List (DispatchResult α)
  | _, [] => []
  | itemIndex, it :: rest =>
      ⟨dispatchOutcome sdk it, itemIndex⟩ :: resultsFrom sdk (itemIndex + 1) rest

instance {ε α : Type} [DecidableEq ε] [DecidableEq α] : DecidableEq (Except ε α) :=
  fun x y =>
    match x, y with
    | .ok a, .ok b =>
        if h : a = b then isTrue (by rw [h]) else isFalse (by intro hc; cases hc; exact h rfl)
    | .error a, .error b =>
        if h : a = b then isTrue (by rw [h]) else isFalse (by intro hc; cases hc; exact h rfl)
    | .ok _, .error _ => isFalse (by intro hc; cases hc)
    | .error _, .ok _ => isFalse (by intro hc; cases hc)

/-- An SDK stand-in that accepts every call with payload `"ok"`, used to
exercise the dispatcher on concrete inputs. -/
def sdkAlwaysOk : RemoteCall → Except String String := fun _ => .ok "ok"

/-- The twelve `case` labels of the dispatcher's `switch`. -/
def knownOperations : List String :=
  ["getProtocols", "quote", "build", "send", "getPools", "getPoolByTokens",
   "addLiquidity", "removeLiquidity", "getUserPositions", "getAssetList",
   "getPrice", "getContractAddress"]

/-- A known-good item: the parameterless `getProtocols` operation. -/
def validItem : Item := { operation := "getProtocols" }

/-- An item whose integer coercion fails: `quote` with a non-numeric amount. -/
def invalidItem : Item := { operation := "quote", amount := "abc" }

/-- Under continue-on-failure the loop never aborts: it returns exactly the
per-item outcome sequence. -/
theorem runItems_continue (sdk : RemoteCall → Except String α) (k : Nat)
    (items : List Item) :
    runItems sdk true k items = .ok (resultsFrom sdk k items) := by
  induction items generalizing k with
  | nil => rfl
  | cons it rest ih =>
      simp only [runItems, resultsFrom, dispatchOutcome]
      cases hp : processItem sdk it <;> simp [hp, ih, Except.map]

/-- The outcome sequence has one entry per item. -/
theorem length_resultsFrom (sdk : RemoteCall → Except String α) (k : Nat)
    (items : List Item) :
    (resultsFrom sdk k items).length = items.length := by
  induction items generalizing k with
  | nil => rfl
  | cons it rest ih => simp [resultsFrom, ih]

/-- Entry `i` of the outcome sequence started at `k` is the outcome of item
`i`, paired with index `k + i`. -/
theorem getElem?_resultsFrom (sdk : RemoteCall → Except String α) (k i : Nat)
    (items : List Item) :
    (resultsFrom sdk k items)[i]? =
      (items[i]?).map (fun it => ⟨dispatchOutcome sdk it, k + i⟩) := by
  induction items generalizing k i with
  | nil => simp [resultsFrom]
  | cons it rest ih =>
      cases i with
      | zero => simp [resultsFrom]
      | succ n =>
          simp only [resultsFrom, List.getElem?_cons_succ, ih]
          have hk : k + 1 + n = k + (n + 1) := by omega
          rw [hk]

/-- Coercion and dispatch of an unknown operation identifier end in the
`default` branch's error. -/
theorem resolveCall_unknown (it : Item) (h : it.operation ∉ knownOperations) :
    resolveCall it = .error ("Unknown operation: " ++ it.operation) := by
  simp only [knownOperations, List.mem_cons, List.not_mem_nil, or_false, not_or] at h
  obtain ⟨h1, h2, h3, h4, h5, h6, h7, h8, h9, h10, h11, h12⟩ := h
  unfold resolveCall
  split <;> simp_all

/-- C1: under continue-on-failure, dispatching any finite item sequence yields
exactly one result per item: the output has the input's length, and entry `i`
is the dispatch outcome (Success payload or Failure record) of item `i`,
carrying `pairedItem = i`, regardless of which items fail. -/
theorem execute_pairing_invariant {α : Type} (sdk : RemoteCall → Except String α)
    (items : List Item) :
    ∃ rs : List (DispatchResult α),
      execute sdk true items = .ok rs ∧
      rs.length = items.length ∧
      ∀ i it, items[i]? = some it →
        rs[i]? = some (DispatchResult.mk (dispatchOutcome sdk it) i) := by
  refine ⟨resultsFrom sdk 0 items, runItems_continue sdk 0 items,
    length_resultsFrom sdk 0 items, ?_⟩
  intro i it h
  rw [getElem?_resultsFrom, h]
  simp

/-- Witness for `execute_pairing_invariant` at a concrete two-item input. -/
theorem execute_pairing_invariant_witness :
    ∃ rs : List (DispatchResult String),
      execute sdkAlwaysOk true [validItem, invalidItem] = .ok rs ∧
      rs.length = 2 ∧
      ∀ i it, [validItem, invalidItem][i]? = some it →
        rs[i]? = some (DispatchResult.mk (dispatchOutcome sdkAlwaysOk it) i) := by
  have h := execute_pairing_invariant sdkAlwaysOk [validItem, invalidItem]
  simpa using h

/-- C2: for input [valid, invalid, valid], continue-on-failure=false aborts at
the second item (index 1) with no result for the third; continue-on-failure=true
yields three results: Success, Failure, Success, paired 0, 1, 2. -/
theorem failfast_vs_continueOnFail :
    execute sdkAlwaysOk false [validItem, invalidItem, validItem] =
      .error ⟨"Cannot convert abc to a BigInt", 1⟩ ∧
    execute sdkAlwaysOk true [validItem, invalidItem, validItem] =
      .ok [⟨.success "ok", 0⟩, ⟨.failure "Cannot convert abc to a BigInt", 1⟩,
           ⟨.success "ok", 2⟩] := by
  decide

/-- C3: an item whose operation identifier is not one of the twelve known
operations yields a Failure outcome naming the identifier, and under
continue-on-failure the run still completes with one result per item, the
unknown-operation item's slot holding that Failure. -/
theorem unknown_operation_isolated {α : Type} (sdk : RemoteCall → Except String α)
    (it : Item) (pre post : List Item) (h : it.operation ∉ knownOperations) :
    dispatchOutcome sdk it = .failure ("Unknown operation: " ++ it.operation) ∧
    ∃ rs, execute sdk true (pre ++ it :: post) = .ok rs ∧
      rs.length = pre.length + 1 + post.length ∧
      rs[pre.length]? =
        some (DispatchResult.mk (.failure ("Unknown operation: " ++ it.operation)) pre.length) := by
  have hres := resolveCall_unknown it h
  have hout : dispatchOutcome sdk it = .failure ("Unknown operation: " ++ it.operation) := by
    simp [dispatchOutcome, processItem, hres]
  refine ⟨hout, resultsFrom sdk 0 (pre ++ it :: post),
    runItems_continue sdk 0 (pre ++ it :: post), ?_, ?_⟩
  · rw [length_resultsFrom]
    simp
    omega
  · have hmid : (pre ++ it :: post)[pre.length]? = some it := by
      rw [List.getElem?_append_right (Nat.le_refl _)]
      simp
    rw [getElem?_resultsFrom, hmid]
    simp [hout]

/-- Witness for `unknown_operation_isolated`: the identifier "doesNotExist"
after one valid item. -/
theorem unknown_operation_isolated_witness :
    ("doesNotExist" ∉ knownOperations) ∧
    dispatchOutcome sdkAlwaysOk { operation := "doesNotExist" } =
      .failure "Unknown operation: doesNotExist" ∧
    ∃ rs, execute sdkAlwaysOk true [validItem, { operation := "doesNotExist" }] = .ok rs ∧
      rs.length = 2 ∧
      rs[1]? = some (DispatchResult.mk (.failure "Unknown operation: doesNotExist") 1) := by
  refine ⟨by decide, ?_⟩
  have h := unknown_operation_isolated sdkAlwaysOk { operation := "doesNotExist" }
    [validItem] [] (by decide)
  simpa using h

/-- C4: the 30-digit decimal string coerces to the equal-valued integer for
each integer-typed parameter (amount, amountA, amountB, liquidity); "abc"
fails coercion, making the item a Failure while the run, under
continue-on-failure, still yields one result per item. -/
theorem bigint_coercion :
    strToBigInt "123456789012345678901234567890" =
      some 123456789012345678901234567890 ∧
    strToBigInt "abc" = none ∧
    resolveCall { operation := "quote", amount := "123456789012345678901234567890" } =
      .ok (.quote "" "" 123456789012345678901234567890 .EXACT_IN
        [some .SOROSWAP] .MAINNET) ∧
    resolveCall { operation := "addLiquidity",
                  amountA := "123456789012345678901234567890",
                  amountB := "123456789012345678901234567890" } =
      .ok (.addLiquidity "" "" 123456789012345678901234567890
        123456789012345678901234567890 "" .MAINNET) ∧
    resolveCall { operation := "removeLiquidity",
                  liquidity := "123456789012345678901234567890" } =
      .ok (.removeLiquidity "" "" 123456789012345678901234567890 0 0 "" .MAINNET) ∧
    execute sdkAlwaysOk true
      [{ operation := "quote", amount := "abc" },
       { operation := "addLiquidity", amountA := "abc", amountB := "1" },
       { operation := "addLiquidity", amountA := "1", amountB := "abc" },
       { operation := "removeLiquidity", liquidity := "abc" }] =
      .ok [⟨.failure "Cannot convert abc to a BigInt", 0⟩,
           ⟨.failure "Cannot convert abc to a BigInt", 1⟩,
           ⟨.failure "Cannot convert abc to a BigInt", 2⟩,
           ⟨.failure "Cannot convert abc to a BigInt", 3⟩] := by
  decide

/-- An asset-list selector outside the four declared keys looks up to `none`. -/
theorem supportedAssetListsLookup_eq_none (s : String)
    (h : s ∉ ["AQUA", "LOBSTR", "SOROSWAP", "STELLAR_EXPERT"]) :
    supportedAssetListsLookup s = none := by
  simp only [List.mem_cons, List.not_mem_nil, or_false, not_or] at h
  obtain ⟨h1, h2, h3, h4⟩ := h
  simp [supportedAssetListsLookup, h1, h2, h3, h4]

/-- A protocol selector outside the four declared keys looks up to `none`. -/
theorem supportedProtocolsLookup_eq_none (s : String)
    (h : s ∉ ["SOROSWAP", "PHOENIX", "AQUA", "SDEX"]) :
    supportedProtocolsLookup s = none := by
  simp only [List.mem_cons, List.not_mem_nil, or_false, not_or] at h
  obtain ⟨h1, h2, h3, h4⟩ := h
  simp [supportedProtocolsLookup, h1, h2, h3, h4]

/-- Mapping the protocol lookup over a list of unknown keys yields a list of
`none` entries of the same length. -/
theorem map_protocolsLookup_unknown (l : List String)
    (h : ∀ p ∈ l, p ∉ ["SOROSWAP", "PHOENIX", "AQUA", "SDEX"]) :
    l.map supportedProtocolsLookup = List.replicate l.length none := by
  induction l with
  | nil => rfl
  | cons a as ih =>
      simp only [List.map_cons, List.length_cons, List.replicate_succ]
      rw [supportedProtocolsLookup_eq_none a (h a (by simp)),
        ih (fun p hp => h p (by simp [hp]))]

/-- C5 counterexample: enum-typed parameter values outside the declared set do
NOT produce a per-item Failure — the item dispatches successfully (here with
contractName "BOGUS" and network "BOGUS"). -/
theorem enum_unvalidated_counterexample :
    ("BOGUS" ∉ ["factory", "router", "aggregator"]) ∧
    dispatchOutcome sdkAlwaysOk
      { operation := "getContractAddress", contractName := "BOGUS" } = .success "ok" ∧
    ("BOGUS" ∉ ["MAINNET", "TESTNET"]) ∧
    dispatchOutcome sdkAlwaysOk
      { operation := "getProtocols", network := "BOGUS" } = .success "ok" := by
  decide

/-- C5 amended: enum-typed parameters are not validated; out-of-set values get
fallback semantics instead of a Failure: unrecognized network → TESTNET,
unrecognized tradeType → EXACT_OUT, unrecognized protocol keys → `none`
entries passed along, unrecognized non-empty assetListName → the all-lists
variant, contractName transmitted verbatim. -/
theorem enum_values_not_validated (it : Item)
    (hnet : it.network ≠ "MAINNET")
    (htt : it.tradeType ≠ "EXACT_IN")
    (hcn : it.contractName ∉ ["factory", "router", "aggregator"])
    (hal : it.assetListName ≠ "")
    (hal2 : it.assetListName ∉ ["AQUA", "LOBSTR", "SOROSWAP", "STELLAR_EXPERT"])
    (hp : ∀ p ∈ it.protocols, p ∉ ["SOROSWAP", "PHOENIX", "AQUA", "SDEX"]) :
    resolveCall { it with operation := "getProtocols" } =
      .ok (.getProtocols .TESTNET) ∧
    resolveCall { it with operation := "getContractAddress" } =
      .ok (.getContractAddress .TESTNET it.contractName) ∧
    resolveCall { it with operation := "getAssetList" } =
      .ok (.getAssetList none) ∧
    resolveCall { it with operation := "quote", amount := "1" } =
      .ok (.quote it.assetIn it.assetOut 1 .EXACT_OUT
        (List.replicate it.protocols.length none) .TESTNET) := by
  have h1 : strToBigInt "1" = some 1 := by decide
  refine ⟨?_, ?_, ?_, ?_⟩
  · simp [resolveCall, resolveNetwork, hnet]
  · simp [resolveCall, resolveNetwork, hnet]
  · simp [resolveCall, hal, supportedAssetListsLookup_eq_none _ hal2]
  · simp [resolveCall, resolveNetwork, resolveTradeType, hnet, htt, h1,
      map_protocolsLookup_unknown it.protocols hp]

/-- Witness for `enum_values_not_validated` at a concrete all-bogus item. -/
theorem enum_values_not_validated_witness :
    ("NEITHER" ≠ "MAINNET" ∧ "WHATEVER" ≠ "EXACT_IN" ∧
     "BOGUS" ∉ ["factory", "router", "aggregator"] ∧
     "NOPE" ∉ ["", "AQUA", "LOBSTR", "SOROSWAP", "STELLAR_EXPERT"] ∧
     "bogus" ∉ ["SOROSWAP", "PHOENIX", "AQUA", "SDEX"]) ∧
    resolveCall { network := "NEITHER", tradeType := "WHATEVER",
                  contractName := "BOGUS", assetListName := "NOPE",
                  protocols := ["bogus"], operation := "quote", amount := "1" } =
      .ok (.quote "" "" 1 .EXACT_OUT [none] .TESTNET) := by
  refine ⟨by decide, ?_⟩
  have h := enum_values_not_validated
    { network := "NEITHER", tradeType := "WHATEVER", contractName := "BOGUS",
      assetListName := "NOPE", protocols := ["bogus"] }
    (by decide) (by decide) (by decide) (by decide) (by decide)
    (by intro p hp; simp at hp; subst hp; decide)
  simpa using h.2.2.2

/-- C6: the pool-listing operations transmit each selected protocol
lower-cased, while quote transmits the SDK protocol enum values looked up from
the selected keys, unmodified; at ["SOROSWAP", "AQUA"] the former sends
["soroswap", "aqua"] and the latter the two enum values. -/
theorem protocol_lowercasing (it : Item) (n : Int)
    (ha : strToBigInt it.amount = some n) :
    resolveCall { it with operation := "getPools" } =
      .ok (.getPools (resolveNetwork it.network) (it.protocols.map jsToLower)) ∧
    resolveCall { it with operation := "getPoolByTokens" } =
      .ok (.getPoolByTokens it.assetA it.assetB (resolveNetwork it.network)
        (it.protocols.map jsToLower)) ∧
    resolveCall { it with operation := "quote" } =
      .ok (.quote it.assetIn it.assetOut n (resolveTradeType it.tradeType)
        (it.protocols.map supportedProtocolsLookup) (resolveNetwork it.network)) ∧
    ["SOROSWAP", "AQUA"].map jsToLower = ["soroswap", "aqua"] ∧
    ["SOROSWAP", "AQUA"].map supportedProtocolsLookup =
      [some .SOROSWAP, some .AQUA] := by
  refine ⟨?_, ?_, ?_, by decide, by decide⟩
  · simp [resolveCall]
  · simp [resolveCall]
  · simp [resolveCall, ha]

/-- Witness for `protocol_lowercasing` at protocols ["SOROSWAP", "AQUA"]. -/
theorem protocol_lowercasing_witness :
    strToBigInt "7" = some 7 ∧
    resolveCall { protocols := ["SOROSWAP", "AQUA"], amount := "7",
                  operation := "getPools" } =
      .ok (.getPools .MAINNET ["soroswap", "aqua"]) ∧
    resolveCall { protocols := ["SOROSWAP", "AQUA"], amount := "7",
                  operation := "quote" } =
      .ok (.quote "" "" 7 .EXACT_IN [some .SOROSWAP, some .AQUA] .MAINNET) := by
  refine ⟨by decide, ?_, ?_⟩
  · have h := protocol_lowercasing
      { protocols := ["SOROSWAP", "AQUA"], amount := "7" } 7 (by decide)
    simpa using h.1
  · have h := protocol_lowercasing
      { protocols := ["SOROSWAP", "AQUA"], amount := "7" } 7 (by decide)
    simpa using h.2.2.1

/-- C7: getPrice splits the assets string on commas and trims each segment
("A, B ,C" parses to ["A", "B", "C"]); a parsed singleton is passed unwrapped,
a longer parsed list is passed as a list. -/
theorem comma_list_parsing (it : Item) (s : String) :
    (jsSplit "A, B ,C" ',').map jsTrim = ["A", "B", "C"] ∧
    (∀ a, (jsSplit s ',').map jsTrim = [a] →
      resolveCall { it with operation := "getPrice", assets := s } =
        .ok (.getPrice (Sum.inl a) (resolveNetwork it.network))) ∧
    (∀ l, (jsSplit s ',').map jsTrim = l → 1 < l.length →
      resolveCall { it with operation := "getPrice", assets := s } =
        .ok (.getPrice (Sum.inr l) (resolveNetwork it.network))) := by
  refine ⟨by decide, ?_, ?_⟩
  · intro a h
    simp [resolveCall, h]
  · intro l h hlen
    have hne : (l.length == 1) = false := by
      simp only [beq_eq_false_iff_ne, ne_eq]
      omega
    simp [resolveCall, h, hne]

/-- Witness for `comma_list_parsing`: the multi-value input "A, B ,C" and the
single-value input " X ". -/
theorem comma_list_parsing_witness :
    resolveCall { operation := "getPrice", assets := "A, B ,C" } =
      .ok (.getPrice (Sum.inr ["A", "B", "C"]) .MAINNET) ∧
    resolveCall { operation := "getPrice", assets := " X " } =
      .ok (.getPrice (Sum.inl "X") .MAINNET) := by
  constructor
  · have h := (comma_list_parsing { operation := "getPrice" } "A, B ,C").2.2
      ["A", "B", "C"] (by decide) (by decide)
    simpa using h
  · have h := (comma_list_parsing { operation := "getPrice" } " X ").2.1
      "X" (by decide)
    simpa using h

/-- C8: removeLiquidity invokes the remote call with both minimum-amounts-out
fields fixed at the integer 0 regardless of the item's amountA/amountB fields,
while liquidity is the coerced user-supplied value. -/
theorem removeLiquidity_zero_minimums (it : Item) (n : Int)
    (h : strToBigInt it.liquidity = some n) :
    resolveCall { it with operation := "removeLiquidity" } =
      .ok (.removeLiquidity it.assetA it.assetB n 0 0 it.toAddress
        (resolveNetwork it.network)) := by
  simp [resolveCall, h]

/-- Witness for `removeLiquidity_zero_minimums`: liquidity "5" with non-zero
amountA/amountB fields that are nevertheless ignored. -/
theorem removeLiquidity_zero_minimums_witness :
    strToBigInt "5" = some 5 ∧
    resolveCall { operation := "removeLiquidity", liquidity := "5",
                  amountA := "777", amountB := "888" } =
      .ok (.removeLiquidity "" "" 5 0 0 "" .MAINNET) := by
  refine ⟨by decide, ?_⟩
  have h := removeLiquidity_zero_minimums
    { operation := "removeLiquidity", liquidity := "5", amountA := "777",
      amountB := "888" } 5 (by decide)
  simpa using h

/-- C9: an empty assetListName yields the all-lists remote call variant with
no per-item failure (the dispatcher hands the call straight to the SDK); each
of the four named selectors is passed as its enum value. -/
theorem assetList_empty_selector {α : Type} (it : Item) :
    resolveCall { it with operation := "getAssetList", assetListName := "" } =
      .ok (.getAssetList none) ∧
    (∀ sdk : RemoteCall → Except String α,
      processItem sdk { it with operation := "getAssetList", assetListName := "" } =
        sdk (.getAssetList none)) ∧
    resolveCall { it with operation := "getAssetList", assetListName := "AQUA" } =
      .ok (.getAssetList (some .AQUA)) ∧
    resolveCall { it with operation := "getAssetList", assetListName := "LOBSTR" } =
      .ok (.getAssetList (some .LOBSTR)) ∧
    resolveCall { it with operation := "getAssetList", assetListName := "SOROSWAP" } =
      .ok (.getAssetList (some .SOROSWAP)) ∧
    resolveCall { it with operation := "getAssetList",
                          assetListName := "STELLAR_EXPERT" } =
      .ok (.getAssetList (some .STELLAR_EXPERT)) := by
  refine ⟨by simp [resolveCall], ?_, by simp [resolveCall, supportedAssetListsLookup],
    by simp [resolveCall, supportedAssetListsLookup],
    by simp [resolveCall, supportedAssetListsLookup],
    by simp [resolveCall, supportedAssetListsLookup]⟩
  intro sdk
  simp [processItem, resolveCall]

/-- C10: the empty string (the schema default for every integer-typed field)
coerces to 0, so the remote call is invoked with amount 0 instead of the item
failing. -/
theorem empty_string_coerces_to_zero (it : Item) :
    strToBigInt "" = some 0 ∧
    resolveCall { it with operation := "quote", amount := "" } =
      .ok (.quote it.assetIn it.assetOut 0 (resolveTradeType it.tradeType)
        (it.protocols.map supportedProtocolsLookup) (resolveNetwork it.network)) ∧
    resolveCall { it with operation := "addLiquidity", amountA := "",
                          amountB := "" } =
      .ok (.addLiquidity it.assetA it.assetB 0 0 it.toAddress
        (resolveNetwork it.network)) ∧
    resolveCall { it with operation := "removeLiquidity", liquidity := "" } =
      .ok (.removeLiquidity it.assetA it.assetB 0 0 0 it.toAddress
        (resolveNetwork it.network)) := by
  have h0 : strToBigInt "" = some 0 := by decide
  exact ⟨h0, by simp [resolveCall, h0], by simp [resolveCall, h0],
    by simp [resolveCall, h0]⟩

end Soroswap
